import Mathlib

/-!
Shallow embedding of src/ex_pg_query.c, the Erlang NIF boundary around the
libpg_query engine.  Machine sizes are modelled as Nat with the source's
explicit bound checks; the external engine (libpg_query and the protobuf-c
codec) is an opaque collaborator, modelled as a structure of functions.
Every operation returns, besides the Erlang term, the list of boundary
events it performed (allocations, frees, engine invocations), so that
lifecycle claims can be stated about the trace.
-/

namespace ExPgQuery

/-- Largest value of the platform size type, a 64-bit size_t. -/
def SIZE_MAX : Nat := 2 ^ 64 - 1

/-- Size ceiling for SQL-text inputs, from the MAX_SQL_LENGTH define. -/
def MAX_SQL_LENGTH : Nat := 16 * 1024 * 1024

/-- Size ceiling for protobuf payload input, from the MAX_PROTOBUF_LENGTH define. -/
def MAX_PROTOBUF_LENGTH : Nat := 32 * 1024 * 1024

/-- Byte contents of an ASCII string literal appearing in the C source. -/
def strBytes (s : String) : List Nat :=
  s.data.map Char.toNat

/-- Contents of a C string buffer: the bytes before the first null byte.
memcpy with a strlen-measured length copies exactly these bytes. -/
def cstr (l : List Nat) : List Nat :=
  l.takeWhile (fun b => b != 0)

/-- strlen of a C string buffer. -/
def strlen (l : List Nat) : Nat := (cstr l).length

/-- Erlang terms built by the boundary code. -/
inductive Term where
  | atom : String → Term
  | bin : List Nat → Term
  | int : Int → Term
  | uint64 : Nat → Term
  | tuple2 : Term → Term → Term
  | map : List (String × Term) → Term

/-- Terms an argument can be, as far as the boundary inspects them:
a binary with its byte contents, or any non-binary term. -/
inductive NifTerm where
  | binary : List Nat → NifTerm
  | nonBinary : NifTerm

/-- Boundary events recorded by the embedding: protobuf unpack and its free,
the marshalled-string allocation and its free, each engine entry-point
invocation with the bytes handed to it, and each native-result free. -/
inductive Event where
  | unpack : List Nat → Event
  | freeUnpacked : Event
  | allocStr : Nat → Event
  | freeStr : Event
  | engDeparse : List Nat → Event
  | engParse : List Nat → Event
  | engScan : List Nat → Event
  | engFingerprint : List Nat → Event
  | engNormalize : List Nat → Event
  | freeDeparseResult : Event
  | freeParseResult : Event
  | freeScanResult : Event
  | freeFingerprintResult : Event
  | freeNormalizeResult : Event
deriving DecidableEq

/-- Engine error record: message buffer and 1-indexed cursor position
(0 when the engine reports no location), as in PgQueryError. -/
structure PgQueryError where
  message : List Nat
  cursorpos : Int

/-- Result of pg_query_parse_protobuf: error, or protobuf payload whose
length is engine-reported (the list is exactly the payload bytes). -/
structure PgQueryProtobufParseResult where
  error : Option PgQueryError
  parse_tree : List Nat

/-- Result of pg_query_deparse_protobuf: error, or a null-terminated
SQL text buffer. -/
structure PgQueryDeparseResult where
  error : Option PgQueryError
  query : List Nat

/-- Result of pg_query_scan: error, or protobuf token payload with
engine-reported length. -/
structure PgQueryScanResult where
  error : Option PgQueryError
  pbuf : List Nat

/-- Result of pg_query_fingerprint: error, or a uint64 fingerprint and a
null-terminated hex string buffer. -/
structure PgQueryFingerprintResult where
  error : Option PgQueryError
  fingerprint : Nat
  fingerprint_str : List Nat

/-- Result of pg_query_normalize: error, or a null-terminated
normalized SQL buffer. -/
structure PgQueryNormalizeResult where
  error : Option PgQueryError
  normalized_query : List Nat

/-- The external engine: libpg_query entry points plus the protobuf-c codec
used for pre-validation, each an arbitrary function of the input bytes.
unpack_ok models whether pg_query__parse_result__unpack returns non-NULL;
check_ok models protobuf_c_message_check on the decoded message. -/
structure Engine where
  pg_query_parse_protobuf : List Nat → PgQueryProtobufParseResult
  pg_query_deparse_protobuf : List Nat → PgQueryDeparseResult
  pg_query_scan : List Nat → PgQueryScanResult
  pg_query_fingerprint : List Nat → PgQueryFingerprintResult
  pg_query_normalize : List Nat → PgQueryNormalizeResult
  unpack_ok : List Nat → Bool
  check_ok : List Nat → Bool

/-- make_error: builds the error tuple with the message copied by
strlen-measured length into a fresh binary. -/
def make_error (message : List Nat) : Term :=
  Term.tuple2 (Term.atom "error") (Term.bin (cstr message))

/-- make_success: builds the ok tuple, copying len bytes of data into a
fresh binary. -/
def make_success (data : List Nat) (len : Nat) : Term :=
  Term.tuple2 (Term.atom "ok") (Term.bin (data.take len))

/-- mk_cstr: null-terminated copy of a binary.  Checks the size-plus-one
overflow first, then allocates size+1 bytes (alloc_ok models whether
enif_alloc succeeds), then copies the bytes and appends the terminator. -/
def mk_cstr (binary : List Nat) (alloc_ok : Bool) : Except Term (List Nat) :=
  if binary.length ≥ SIZE_MAX - 1 then
    Except.error (make_error (strBytes "input size too large"))
  else if alloc_ok then
    Except.ok (binary ++ [0])
  else
    Except.error (make_error (strBytes "memory allocation failed"))

/-- validate_args: arity check, then binary-type check, then size check,
in source order.  The enif_inspect_binary step always succeeds on a term
that enif_is_binary accepted, so it has no failure branch here. -/
def validate_args (argv : List NifTerm) (max_length : Nat) :
    Except Term (List Nat) :=
  match argv with
  | [arg] =>
    match arg with
    | NifTerm.binary bytes =>
      if bytes.length > max_length then
        Except.error (make_error (strBytes "input too large"))
      else
        Except.ok bytes
    | NifTerm.nonBinary =>
      Except.error (make_error (strBytes "argument must be a binary"))
  | _ => Except.error (make_error (strBytes "invalid number of arguments"))

/-- create_parse_error_map: error map with the message (copied by strlen)
and the zero-indexed cursor position.  put1 and put2 model whether the two
enif_make_map_put calls succeed. -/
def create_parse_error_map (error : PgQueryError) (put1 put2 : Bool) : Term :=
  if put1 then
    if put2 then
      Term.tuple2 (Term.atom "error")
        (Term.map [("message", Term.bin (cstr error.message)),
                   ("cursorpos", Term.int (error.cursorpos - 1))])
    else
      make_error (strBytes "failed to create error map")
  else
    make_error (strBytes "failed to create error map")

/-- deparse_protobuf: validate, pre-validate the payload with the protobuf
codec (unpack plus consistency check, freeing the decoded copy), then hand
the original raw bytes to pg_query_deparse_protobuf and copy the resulting
SQL text by strlen. -/
def deparse_protobuf (eng : Engine) (argv : List NifTerm) :
    Term × List Event :=
  match validate_args argv MAX_PROTOBUF_LENGTH with
  | Except.error e => (e, [])
  | Except.ok input_binary =>
    if eng.unpack_ok input_binary = false then
      (make_error (strBytes "invalid protobuf message format"),
       [Event.unpack input_binary])
    else if eng.check_ok input_binary = false then
      (make_error (strBytes "invalid protobuf message format"),
       [Event.unpack input_binary, Event.freeUnpacked])
    else
      let result := eng.pg_query_deparse_protobuf input_binary
      match result.error with
      | some err =>
        (make_error err.message,
         [Event.unpack input_binary, Event.freeUnpacked,
          Event.engDeparse input_binary, Event.freeDeparseResult])
      | none =>
        (make_success result.query (strlen result.query),
         [Event.unpack input_binary, Event.freeUnpacked,
          Event.engDeparse input_binary, Event.freeDeparseResult])

/-- parse_protobuf: validate, marshal the SQL to a null-terminated copy,
invoke pg_query_parse_protobuf, free the copy, then either build the
structured error map or copy the payload by its engine-reported length,
and free the native result on both branches. -/
def parse_protobuf (eng : Engine) (alloc_ok put1 put2 : Bool)
    (argv : List NifTerm) : Term × List Event :=
  match validate_args argv MAX_SQL_LENGTH with
  | Except.error e => (e, [])
  | Except.ok query_binary =>
    match mk_cstr query_binary alloc_ok with
    | Except.error e => (e, [])
    | Except.ok query_str =>
      let result := eng.pg_query_parse_protobuf query_str
      match result.error with
      | some err =>
        (create_parse_error_map err put1 put2,
         [Event.allocStr (query_binary.length + 1), Event.engParse query_str,
          Event.freeStr, Event.freeParseResult])
      | none =>
        (make_success result.parse_tree result.parse_tree.length,
         [Event.allocStr (query_binary.length + 1), Event.engParse query_str,
          Event.freeStr, Event.freeParseResult])

/-- fingerprint: validate, marshal, invoke pg_query_fingerprint, free the
copy, then on success build the two-entry result map (put1 and put2 model
the enif_make_map_put calls; on failure of either the native result is
freed and a plain error returned), freeing the native result on every
branch. -/
def fingerprint (eng : Engine) (alloc_ok put1 put2 : Bool)
    (argv : List NifTerm) : Term × List Event :=
  match validate_args argv MAX_SQL_LENGTH with
  | Except.error e => (e, [])
  | Except.ok query_binary =>
    match mk_cstr query_binary alloc_ok with
    | Except.error e => (e, [])
    | Except.ok query_str =>
      let result := eng.pg_query_fingerprint query_str
      let tr := [Event.allocStr (query_binary.length + 1),
                 Event.engFingerprint query_str, Event.freeStr,
                 Event.freeFingerprintResult]
      match result.error with
      | some err => (make_error err.message, tr)
      | none =>
        if put1 then
          if put2 then
            (Term.tuple2 (Term.atom "ok")
              (Term.map [("fingerprint", Term.uint64 result.fingerprint),
                         ("fingerprint_str",
                          Term.bin (cstr result.fingerprint_str))]), tr)
          else
            (make_error (strBytes "failed to create result map"), tr)
        else
          (make_error (strBytes "failed to create result map"), tr)

/-- scan: validate, marshal, invoke pg_query_scan, free the copy, then
either build the structured error map or copy the token payload by its
engine-reported length, freeing the native result on both branches. -/
def scan (eng : Engine) (alloc_ok put1 put2 : Bool)
    (argv : List NifTerm) : Term × List Event :=
  match validate_args argv MAX_SQL_LENGTH with
  | Except.error e => (e, [])
  | Except.ok query_binary =>
    match mk_cstr query_binary alloc_ok with
    | Except.error e => (e, [])
    | Except.ok query_str =>
      let result := eng.pg_query_scan query_str
      match result.error with
      | some err =>
        (create_parse_error_map err put1 put2,
         [Event.allocStr (query_binary.length + 1), Event.engScan query_str,
          Event.freeStr, Event.freeScanResult])
      | none =>
        (make_success result.pbuf result.pbuf.length,
         [Event.allocStr (query_binary.length + 1), Event.engScan query_str,
          Event.freeStr, Event.freeScanResult])

/-- normalize: validate, marshal, invoke pg_query_normalize, free the copy,
then either return the plain engine error or copy the normalized text by
strlen, freeing the native result on both branches. -/
def normalize (eng : Engine) (alloc_ok : Bool)
    (argv : List NifTerm) : Term × List Event :=
  match validate_args argv MAX_SQL_LENGTH with
  | Except.error e => (e, [])
  | Except.ok query_binary =>
    match mk_cstr query_binary alloc_ok with
    | Except.error e => (e, [])
    | Except.ok query_str =>
      let result := eng.pg_query_normalize query_str
      match result.error with
      | some err =>
        (make_error err.message,
         [Event.allocStr (query_binary.length + 1),
          Event.engNormalize query_str, Event.freeStr,
          Event.freeNormalizeResult])
      | none =>
        (make_success result.normalized_query
           (strlen result.normalized_query),
         [Event.allocStr (query_binary.length + 1),
          Event.engNormalize query_str, Event.freeStr,
          Event.freeNormalizeResult])

/-- Is this event an invocation of a result-allocating libpg_query entry
point? -/
def isEngineCall : Event → Bool
  | Event.engDeparse _ => true
  | Event.engParse _ => true
  | Event.engScan _ => true
  | Event.engFingerprint _ => true
  | Event.engNormalize _ => true
  | _ => false

/-- Is this event a pg_query_free_..._result call? -/
def isResultFree : Event → Bool
  | Event.freeDeparseResult => true
  | Event.freeParseResult => true
  | Event.freeScanResult => true
  | Event.freeFingerprintResult => true
  | Event.freeNormalizeResult => true
  | _ => false

/-- Number of result-allocating engine invocations in a trace. -/
def engineCallCount (ev : List Event) : Nat :=
  (ev.filter isEngineCall).length

/-- Number of native-result frees in a trace. -/
def resultFreeCount (ev : List Event) : Nat :=
  (ev.filter isResultFree).length

/-- The Native Result lifecycle invariant for one call's trace: as many
frees as engine invocations, and at most one engine invocation. -/
def releasedOnce (ev : List Event) : Prop :=
  resultFreeCount ev = engineCallCount ev ∧ engineCallCount ev ≤ 1

/-- The inputs handed to pg_query_deparse_protobuf during a trace. -/
def engDeparseInputs (ev : List Event) : List (List Nat) :=
  ev.filterMap (fun e =>
    match e with
    | Event.engDeparse x => some x
    | _ => none)

/-- An engine error that reports no location (cursorpos 0), for concrete
instantiations. -/
def locless : PgQueryError :=
  { message := strBytes "syntax error", cursorpos := 0 }

/-- A concrete engine whose every entry point fails with a location-free
error and whose codec accepts every payload. -/
def errEngine : Engine where
  pg_query_parse_protobuf := fun _ => { error := some locless, parse_tree := [] }
  pg_query_deparse_protobuf := fun _ => { error := some locless, query := [0] }
  pg_query_scan := fun _ => { error := some locless, pbuf := [] }
  pg_query_fingerprint := fun _ =>
    { error := some locless, fingerprint := 0, fingerprint_str := [0] }
  pg_query_normalize := fun _ => { error := some locless, normalized_query := [0] }
  unpack_ok := fun _ => true
  check_ok := fun _ => true

/-- A concrete engine whose every entry point succeeds, with outputs that
contain embedded null bytes, and whose codec accepts every payload. -/
def nulEngine : Engine where
  pg_query_parse_protobuf := fun _ => { error := none, parse_tree := [10, 0, 20] }
  pg_query_deparse_protobuf := fun _ => { error := none, query := [83, 0, 99] }
  pg_query_scan := fun _ => { error := none, pbuf := [7, 0] }
  pg_query_fingerprint := fun _ =>
    { error := none, fingerprint := 11, fingerprint_str := [97, 98, 0] }
  pg_query_normalize := fun _ => { error := none, normalized_query := [36, 49, 0, 50] }
  unpack_ok := fun _ => true
  check_ok := fun _ => true

/-- A concrete engine whose normalize entry point fails with a message
equal to the boundary's own size-check message. -/
def collideEngine : Engine where
  pg_query_parse_protobuf := fun _ => { error := none, parse_tree := [] }
  pg_query_deparse_protobuf := fun _ => { error := none, query := [0] }
  pg_query_scan := fun _ => { error := none, pbuf := [] }
  pg_query_fingerprint := fun _ =>
    { error := none, fingerprint := 0, fingerprint_str := [0] }
  pg_query_normalize := fun _ =>
    { error := some { message := strBytes "input too large", cursorpos := 0 },
      normalized_query := [0] }
  unpack_ok := fun _ => true
  check_ok := fun _ => true

/-- The fixed error messages the boundary itself produces. -/
def boundaryMessages : List String :=
  ["invalid number of arguments", "argument must be a binary",
   "input too large", "input size too large", "memory allocation failed",
   "invalid protobuf message format", "failed to create result map",
   "failed to create error map"]

theorem validate_args_ok (b : List Nat) (m : Nat) (h : b.length ≤ m) :
    validate_args [NifTerm.binary b] m = Except.ok b := by
  simp [validate_args, Nat.not_lt.mpr h]

theorem mk_cstr_ok (b : List Nat) (h : b.length < SIZE_MAX - 1) :
    mk_cstr b true = Except.ok (b ++ [0]) := by
  simp [mk_cstr, Nat.not_le.mpr h]

theorem sql_below_size_max : MAX_SQL_LENGTH < SIZE_MAX - 1 := by decide

theorem take_strlen (l : List Nat) : l.take (strlen l) = cstr l := by
  induction l with
  | nil => rfl
  | cons x xs ih =>
    simp only [strlen, cstr, List.takeWhile_cons] at *
    by_cases h : (x != 0) = true
    · simp [h, ih]
    · simp [h]

theorem make_error_eq_iff (m1 m2 : List Nat) :
    make_error m1 = make_error m2 ↔ cstr m1 = cstr m2 := by
  constructor
  · intro h
    injection h with h1 h2
    injection h2
  · intro h
    simp [make_error, h]

theorem normalize_oversize (eng : Engine) (alloc_ok : Bool) (b : List Nat)
    (hb : b.length > MAX_SQL_LENGTH) :
    normalize eng alloc_ok [NifTerm.binary b]
      = (make_error (strBytes "input too large"), []) := by
  have hv : validate_args [NifTerm.binary b] MAX_SQL_LENGTH
      = Except.error (make_error (strBytes "input too large")) := by
    simp [validate_args, hb]
  simp [normalize, hv]

/-- C1: on an in-bounds deparse input, if the protobuf unpack or the
structural consistency check fails, deparse returns the MalformedPayload
error with message invalid protobuf message format and the engine deparse
entry point is never invoked; if both succeed, the engine deparse entry
point is invoked exactly once and receives the original raw input bytes. -/
theorem deparse_prevalidation_gate (eng : Engine) (b : List Nat)
    (hb : b.length ≤ MAX_PROTOBUF_LENGTH) :
    ((eng.unpack_ok b = false ∨ eng.check_ok b = false) →
      (deparse_protobuf eng [NifTerm.binary b]).1
          = make_error (strBytes "invalid protobuf message format") ∧
      engDeparseInputs (deparse_protobuf eng [NifTerm.binary b]).2 = []) ∧
    (eng.unpack_ok b = true → eng.check_ok b = true →
      engDeparseInputs (deparse_protobuf eng [NifTerm.binary b]).2 = [b]) := by
  have hv := validate_args_ok b MAX_PROTOBUF_LENGTH hb
  constructor
  · intro h
    by_cases hu : eng.unpack_ok b = false
    · simp [deparse_protobuf, hv, hu, engDeparseInputs]
    · have hc : eng.check_ok b = false := by
        rcases h with h | h
        · exact absurd h hu
        · exact h
      simp [deparse_protobuf, hv, hu, hc, engDeparseInputs]
  · intro h1 h2
    rcases hres : (eng.pg_query_deparse_protobuf b).error with _ | err <;>
      simp [deparse_protobuf, hv, h1, h2, hres, engDeparseInputs]

theorem deparse_prevalidation_gate_witness :
    ([] : List Nat).length ≤ MAX_PROTOBUF_LENGTH ∧
    (nulEngine.unpack_ok [] = true → nulEngine.check_ok [] = true →
      engDeparseInputs (deparse_protobuf nulEngine [NifTerm.binary []]).2
        = [[]]) :=
  ⟨by decide, (deparse_prevalidation_gate nulEngine [] (by decide)).2⟩

/-- C2: for every call to any of the five operations, on every exit path,
the trace contains exactly as many native-result frees as result-allocating
engine invocations, and at most one such invocation: once the engine has
been invoked, its result is released exactly once before the call
returns. -/
theorem native_result_released_exactly_once (eng : Engine)
    (alloc_ok put1 put2 : Bool) (argv : List NifTerm) :
    releasedOnce (parse_protobuf eng alloc_ok put1 put2 argv).2 ∧
    releasedOnce (deparse_protobuf eng argv).2 ∧
    releasedOnce (scan eng alloc_ok put1 put2 argv).2 ∧
    releasedOnce (fingerprint eng alloc_ok put1 put2 argv).2 ∧
    releasedOnce (normalize eng alloc_ok argv).2 := by
  refine ⟨?_, ?_, ?_, ?_, ?_⟩ <;>
    simp only [parse_protobuf, deparse_protobuf, scan, fingerprint,
      normalize] <;>
    repeat' split
  all_goals
    simp [releasedOnce, resultFreeCount, engineCallCount, isEngineCall,
      isResultFree]

/-- C3: when parse or scan receives an in-bounds input and the engine
reports an error, the structured error map carries cursorpos equal to the
engine-reported position minus one; in particular a report of 1 surfaces
as 0 and a report of 0 surfaces as -1. -/
theorem parse_scan_cursor_zero_indexed (eng : Engine) (b : List Nat)
    (perr serr : PgQueryError)
    (hb : b.length ≤ MAX_SQL_LENGTH)
    (hp : (eng.pg_query_parse_protobuf (b ++ [0])).error = some perr)
    (hs : (eng.pg_query_scan (b ++ [0])).error = some serr) :
    (parse_protobuf eng true true true [NifTerm.binary b]).1
        = Term.tuple2 (Term.atom "error")
            (Term.map [("message", Term.bin (cstr perr.message)),
                       ("cursorpos", Term.int (perr.cursorpos - 1))]) ∧
    (scan eng true true true [NifTerm.binary b]).1
        = Term.tuple2 (Term.atom "error")
            (Term.map [("message", Term.bin (cstr serr.message)),
                       ("cursorpos", Term.int (serr.cursorpos - 1))]) := by
  have hv := validate_args_ok b MAX_SQL_LENGTH hb
  have hc := mk_cstr_ok b (lt_of_le_of_lt hb sql_below_size_max)
  constructor <;>
    simp [parse_protobuf, scan, hv, hc, hp, hs, create_parse_error_map]

theorem parse_scan_cursor_zero_indexed_witness :
    ([] : List Nat).length ≤ MAX_SQL_LENGTH ∧
    (errEngine.pg_query_parse_protobuf ([] ++ [0])).error = some locless ∧
    (errEngine.pg_query_scan ([] ++ [0])).error = some locless ∧
    (parse_protobuf errEngine true true true [NifTerm.binary []]).1
        = Term.tuple2 (Term.atom "error")
            (Term.map [("message", Term.bin (strBytes "syntax error")),
                       ("cursorpos", Term.int (-1))]) :=
  ⟨by decide, rfl, rfl,
   (parse_scan_cursor_zero_indexed errEngine [] locless locless
      (by decide) rfl rfl).1⟩

/-- C4: validate_args checks arity, then binary type, then size, in that
order, returning the classified failure of the first check that fails,
and accepts exactly the single-binary in-bounds argument lists. -/
theorem validate_args_checks_in_order (argv : List NifTerm) (b : List Nat)
    (max_length : Nat) :
    (argv.length ≠ 1 →
      validate_args argv max_length
        = Except.error (make_error (strBytes "invalid number of arguments"))) ∧
    (validate_args [NifTerm.nonBinary] max_length
        = Except.error (make_error (strBytes "argument must be a binary"))) ∧
    (b.length > max_length →
      validate_args [NifTerm.binary b] max_length
        = Except.error (make_error (strBytes "input too large"))) ∧
    (b.length ≤ max_length →
      validate_args [NifTerm.binary b] max_length = Except.ok b) := by
  refine ⟨?_, rfl, ?_, fun h => validate_args_ok b max_length h⟩
  · intro h
    rcases argv with _ | ⟨a, _ | ⟨a2, rest⟩⟩
    · rfl
    · simp at h
    · rfl
  · intro h
    simp [validate_args, h]

theorem validate_args_checks_in_order_witness :
    ([] : List NifTerm).length ≠ 1 ∧
    validate_args [] 0
      = Except.error (make_error (strBytes "invalid number of arguments")) :=
  ⟨by decide, (validate_args_checks_in_order [] [] 0).1 (by decide)⟩

/-- C5: an input strictly larger than the operation's ceiling (16 MiB for
parse, scan, fingerprint and normalize; 32 MiB for deparse) makes the
operation return the input too large error with an empty trace, so the
marshalled copy is never allocated and the engine is never invoked, while
any input of at most the ceiling size passes the validation check. -/
theorem oversize_input_short_circuits (eng : Engine)
    (alloc_ok put1 put2 : Bool) (b bp b2 : List Nat) (c : Nat)
    (hb : b.length > MAX_SQL_LENGTH) (hbp : bp.length > MAX_PROTOBUF_LENGTH)
    (hb2 : b2.length ≤ c) :
    parse_protobuf eng alloc_ok put1 put2 [NifTerm.binary b]
        = (make_error (strBytes "input too large"), []) ∧
    scan eng alloc_ok put1 put2 [NifTerm.binary b]
        = (make_error (strBytes "input too large"), []) ∧
    fingerprint eng alloc_ok put1 put2 [NifTerm.binary b]
        = (make_error (strBytes "input too large"), []) ∧
    normalize eng alloc_ok [NifTerm.binary b]
        = (make_error (strBytes "input too large"), []) ∧
    deparse_protobuf eng [NifTerm.binary bp]
        = (make_error (strBytes "input too large"), []) ∧
    validate_args [NifTerm.binary b2] c = Except.ok b2 := by
  have hv : validate_args [NifTerm.binary b] MAX_SQL_LENGTH
      = Except.error (make_error (strBytes "input too large")) := by
    simp [validate_args, hb]
  have hvp : validate_args [NifTerm.binary bp] MAX_PROTOBUF_LENGTH
      = Except.error (make_error (strBytes "input too large")) := by
    simp [validate_args, hbp]
  exact ⟨by simp [parse_protobuf, hv], by simp [scan, hv],
         by simp [fingerprint, hv], by simp [normalize, hv],
         by simp [deparse_protobuf, hvp], validate_args_ok b2 c hb2⟩

theorem oversize_input_short_circuits_witness :
    (List.replicate (MAX_SQL_LENGTH + 1) 0).length > MAX_SQL_LENGTH ∧
    (List.replicate (MAX_PROTOBUF_LENGTH + 1) 0).length
        > MAX_PROTOBUF_LENGTH ∧
    (List.replicate MAX_SQL_LENGTH 0).length ≤ MAX_SQL_LENGTH ∧
    normalize nulEngine true
        [NifTerm.binary (List.replicate (MAX_SQL_LENGTH + 1) 0)]
      = (make_error (strBytes "input too large"), []) ∧
    validate_args [NifTerm.binary (List.replicate MAX_SQL_LENGTH 0)]
        MAX_SQL_LENGTH
      = Except.ok (List.replicate MAX_SQL_LENGTH 0) := by
  have h1 : (List.replicate (MAX_SQL_LENGTH + 1) 0).length
      > MAX_SQL_LENGTH := by
    rw [List.length_replicate]
    exact Nat.lt_succ_self _
  have h2 : (List.replicate (MAX_PROTOBUF_LENGTH + 1) 0).length
      > MAX_PROTOBUF_LENGTH := by
    rw [List.length_replicate]
    exact Nat.lt_succ_self _
  have h3 : (List.replicate MAX_SQL_LENGTH 0).length ≤ MAX_SQL_LENGTH := by
    rw [List.length_replicate]
  have h := oversize_input_short_circuits nulEngine true true true
    (List.replicate (MAX_SQL_LENGTH + 1) 0)
    (List.replicate (MAX_PROTOBUF_LENGTH + 1) 0)
    (List.replicate MAX_SQL_LENGTH 0) MAX_SQL_LENGTH h1 h2 h3
  exact ⟨h1, h2, h3, h.2.2.2.1, h.2.2.2.2.2⟩

/-- C6: mk_cstr rejects a buffer whose size reaches the size-type maximum
minus one before allocating, rejects a failed allocation with the
allocation-failure error, and otherwise yields the buffer's bytes followed
by a null terminator; on an in-bounds input whose allocation fails, the
operation returns that error with an empty trace, so the engine is never
invoked. -/
theorem mk_cstr_marshalling (eng : Engine) (b : List Nat)
    (alloc_ok : Bool) :
    (b.length ≥ SIZE_MAX - 1 →
      mk_cstr b alloc_ok
        = Except.error (make_error (strBytes "input size too large"))) ∧
    (b.length < SIZE_MAX - 1 → alloc_ok = false →
      mk_cstr b alloc_ok
        = Except.error (make_error (strBytes "memory allocation failed"))) ∧
    (b.length < SIZE_MAX - 1 → alloc_ok = true →
      mk_cstr b alloc_ok = Except.ok (b ++ [0])) ∧
    (b.length ≤ MAX_SQL_LENGTH → alloc_ok = false →
      normalize eng alloc_ok [NifTerm.binary b]
        = (make_error (strBytes "memory allocation failed"), [])) := by
  refine ⟨?_, ?_, ?_, ?_⟩
  · intro h
    simp [mk_cstr, h]
  · intro h ha
    subst ha
    simp [mk_cstr, Nat.not_le.mpr h]
  · intro h ha
    subst ha
    exact mk_cstr_ok b h
  · intro h ha
    subst ha
    have hv := validate_args_ok b MAX_SQL_LENGTH h
    have hm : mk_cstr b false
        = Except.error (make_error (strBytes "memory allocation failed")) := by
      simp [mk_cstr, Nat.not_le.mpr (lt_of_le_of_lt h sql_below_size_max)]
    simp [normalize, hv, hm]

theorem mk_cstr_marshalling_witness :
    ([42] : List Nat).length < SIZE_MAX - 1 ∧
    mk_cstr [42] true = Except.ok [42, 0] ∧
    normalize nulEngine false [NifTerm.binary [42]]
      = (make_error (strBytes "memory allocation failed"), []) :=
  ⟨by decide,
   (mk_cstr_marshalling nulEngine [42] true).2.2.1 (by decide) rfl,
   (mk_cstr_marshalling nulEngine [42] false).2.2.2 (by decide) rfl⟩

/-- C7: on success, the text-output operations deparse and normalize copy
the engine's buffer by strlen, keeping only the bytes before the first
null, while the payload-output operations parse and scan copy the
engine-reported byte length, preserving the payload bytes exactly,
embedded nulls included. -/
theorem output_copy_semantics (eng : Engine) (b d : List Nat)
    (hb : b.length ≤ MAX_SQL_LENGTH) (hd : d.length ≤ MAX_PROTOBUF_LENGTH)
    (hu : eng.unpack_ok d = true) (hk : eng.check_ok d = true)
    (hdep : (eng.pg_query_deparse_protobuf d).error = none)
    (hnorm : (eng.pg_query_normalize (b ++ [0])).error = none)
    (hpar : (eng.pg_query_parse_protobuf (b ++ [0])).error = none)
    (hscan : (eng.pg_query_scan (b ++ [0])).error = none) :
    (deparse_protobuf eng [NifTerm.binary d]).1
        = Term.tuple2 (Term.atom "ok")
            (Term.bin (cstr (eng.pg_query_deparse_protobuf d).query)) ∧
    (normalize eng true [NifTerm.binary b]).1
        = Term.tuple2 (Term.atom "ok")
            (Term.bin
              (cstr (eng.pg_query_normalize (b ++ [0])).normalized_query)) ∧
    (parse_protobuf eng true true true [NifTerm.binary b]).1
        = Term.tuple2 (Term.atom "ok")
            (Term.bin (eng.pg_query_parse_protobuf (b ++ [0])).parse_tree) ∧
    (scan eng true true true [NifTerm.binary b]).1
        = Term.tuple2 (Term.atom "ok")
            (Term.bin (eng.pg_query_scan (b ++ [0])).pbuf) := by
  have hv := validate_args_ok b MAX_SQL_LENGTH hb
  have hvd := validate_args_ok d MAX_PROTOBUF_LENGTH hd
  have hc := mk_cstr_ok b (lt_of_le_of_lt hb sql_below_size_max)
  refine ⟨?_, ?_, ?_, ?_⟩
  · simp [deparse_protobuf, hvd, hu, hk, hdep, make_success, take_strlen]
  · simp [normalize, hv, hc, hnorm, make_success, take_strlen]
  · simp [parse_protobuf, hv, hc, hpar, make_success]
  · simp [scan, hv, hc, hscan, make_success]

theorem output_copy_semantics_witness :
    ([] : List Nat).length ≤ MAX_SQL_LENGTH ∧
    (nulEngine.pg_query_deparse_protobuf []).error = none ∧
    (deparse_protobuf nulEngine [NifTerm.binary []]).1
        = Term.tuple2 (Term.atom "ok") (Term.bin [83]) ∧
    (parse_protobuf nulEngine true true true [NifTerm.binary []]).1
        = Term.tuple2 (Term.atom "ok") (Term.bin [10, 0, 20]) :=
  ⟨by decide, rfl,
   (output_copy_semantics nulEngine [] [] (by decide) (by decide)
      rfl rfl rfl rfl rfl rfl).1,
   (output_copy_semantics nulEngine [] [] (by decide) (by decide)
      rfl rfl rfl rfl rfl rfl).2.2.1⟩

/-- C8: when the engine reports a failure, parse and scan surface a
structured error map carrying the message and the zero-indexed cursor
position, while deparse, fingerprint and normalize surface only the plain
message error tuple with no cursor position. -/
theorem engine_error_shapes (eng : Engine) (b d : List Nat)
    (perr serr derr ferr nerr : PgQueryError)
    (hb : b.length ≤ MAX_SQL_LENGTH) (hd : d.length ≤ MAX_PROTOBUF_LENGTH)
    (hu : eng.unpack_ok d = true) (hk : eng.check_ok d = true)
    (hp : (eng.pg_query_parse_protobuf (b ++ [0])).error = some perr)
    (hs : (eng.pg_query_scan (b ++ [0])).error = some serr)
    (hde : (eng.pg_query_deparse_protobuf d).error = some derr)
    (hf : (eng.pg_query_fingerprint (b ++ [0])).error = some ferr)
    (hn : (eng.pg_query_normalize (b ++ [0])).error = some nerr) :
    (parse_protobuf eng true true true [NifTerm.binary b]).1
        = Term.tuple2 (Term.atom "error")
            (Term.map [("message", Term.bin (cstr perr.message)),
                       ("cursorpos", Term.int (perr.cursorpos - 1))]) ∧
    (scan eng true true true [NifTerm.binary b]).1
        = Term.tuple2 (Term.atom "error")
            (Term.map [("message", Term.bin (cstr serr.message)),
                       ("cursorpos", Term.int (serr.cursorpos - 1))]) ∧
    (deparse_protobuf eng [NifTerm.binary d]).1 = make_error derr.message ∧
    (fingerprint eng true true true [NifTerm.binary b]).1
        = make_error ferr.message ∧
    (normalize eng true [NifTerm.binary b]).1 = make_error nerr.message := by
  have hv := validate_args_ok b MAX_SQL_LENGTH hb
  have hvd := validate_args_ok d MAX_PROTOBUF_LENGTH hd
  have hc := mk_cstr_ok b (lt_of_le_of_lt hb sql_below_size_max)
  refine ⟨?_, ?_, ?_, ?_, ?_⟩
  · simp [parse_protobuf, hv, hc, hp, create_parse_error_map]
  · simp [scan, hv, hc, hs, create_parse_error_map]
  · simp [deparse_protobuf, hvd, hu, hk, hde]
  · simp [fingerprint, hv, hc, hf]
  · simp [normalize, hv, hc, hn]

theorem engine_error_shapes_witness :
    ([] : List Nat).length ≤ MAX_SQL_LENGTH ∧
    (errEngine.pg_query_normalize ([] ++ [0])).error = some locless ∧
    (scan errEngine true true true [NifTerm.binary []]).1
        = Term.tuple2 (Term.atom "error")
            (Term.map [("message", Term.bin (strBytes "syntax error")),
                       ("cursorpos", Term.int (-1))]) ∧
    (normalize errEngine true [NifTerm.binary []]).1
        = make_error (strBytes "syntax error") :=
  ⟨by decide, rfl,
   (engine_error_shapes errEngine [] [] locless locless locless locless
      locless (by decide) (by decide) rfl rfl rfl rfl rfl rfl rfl).2.1,
   (engine_error_shapes errEngine [] [] locless locless locless locless
      locless (by decide) (by decide) rfl rfl rfl rfl rfl rfl
      rfl).2.2.2.2⟩

/-- C9 counterexample: the plain engine error is the engine's message
verbatim, so an engine whose normalize entry point reports the message
input too large makes an engine failure on a small input return exactly
the same error value as the boundary's own InputTooLarge rejection of an
oversized input: the two failure classes are not distinguishable. -/
theorem error_classes_collide :
    (normalize collideEngine true [NifTerm.binary []]).1
      = (normalize collideEngine true
          [NifTerm.binary (List.replicate (MAX_SQL_LENGTH + 1) 0)]).1 := by
  have h1 : validate_args [NifTerm.binary ([] : List Nat)] MAX_SQL_LENGTH
      = Except.ok [] := validate_args_ok [] _ (by decide)
  have h3 := mk_cstr_ok ([] : List Nat) (by decide)
  have hsmall : (normalize collideEngine true [NifTerm.binary []]).1
      = make_error (strBytes "input too large") := by
    simp [normalize, h1, h3, collideEngine]
  have hbig := normalize_oversize collideEngine true
    (List.replicate (MAX_SQL_LENGTH + 1) 0)
    (by rw [List.length_replicate]; exact Nat.lt_succ_self _)
  rw [hsmall, hbig]

/-- C9 amended: make_error values coincide exactly when the strlen-copied
messages coincide, the boundary's own fixed messages are pairwise
distinct, and a successfully built structured error map is never equal to
any plain message error; so all failure classes with fixed messages, and
the structured class, are pairwise distinguishable, while a plain engine
error carries the engine's message verbatim and is only distinguishable
from the fixed classes when that message differs from theirs. -/
theorem fixed_error_classes_distinguishable :
    (∀ m1 m2 : List Nat,
      make_error m1 = make_error m2 ↔ cstr m1 = cstr m2) ∧
    (boundaryMessages.map (fun s => cstr (strBytes s))).Pairwise (· ≠ ·) ∧
    (∀ err : PgQueryError, ∀ m : List Nat,
      create_parse_error_map err true true ≠ make_error m) := by
  refine ⟨make_error_eq_iff, by decide, ?_⟩
  intro err m h
  simp [create_parse_error_map, make_error] at h

theorem fixed_error_classes_distinguishable_witness :
    create_parse_error_map locless true true
      ≠ make_error (strBytes "input too large") :=
  fixed_error_classes_distinguishable.2.2 locless
    (strBytes "input too large")

/-- C10: a zero-length binary passes validation under both ceilings, is
marshalled to the empty null-terminated string, and every operation
proceeds past the boundary into native work: the four SQL-text operations
invoke their engine entry point on the marshalled empty string, and
deparse invokes the protobuf unpack on the empty payload. -/
theorem empty_input_reaches_engine (eng : Engine) :
    validate_args [NifTerm.binary []] MAX_SQL_LENGTH = Except.ok [] ∧
    validate_args [NifTerm.binary []] MAX_PROTOBUF_LENGTH = Except.ok [] ∧
    mk_cstr [] true = Except.ok [0] ∧
    Event.engParse [0]
        ∈ (parse_protobuf eng true true true [NifTerm.binary []]).2 ∧
    Event.engScan [0] ∈ (scan eng true true true [NifTerm.binary []]).2 ∧
    Event.engFingerprint [0]
        ∈ (fingerprint eng true true true [NifTerm.binary []]).2 ∧
    Event.engNormalize [0] ∈ (normalize eng true [NifTerm.binary []]).2 ∧
    Event.unpack [] ∈ (deparse_protobuf eng [NifTerm.binary []]).2 := by
  have hm := mk_cstr_ok ([] : List Nat) (by decide)
  refine ⟨rfl, rfl, hm, ?_, ?_, ?_, ?_, ?_⟩
  · rcases h : (eng.pg_query_parse_protobuf [0]).error with _ | e <;>
      simp [parse_protobuf, validate_args, hm, h]
  · rcases h : (eng.pg_query_scan [0]).error with _ | e <;>
      simp [scan, validate_args, hm, h]
  · rcases h : (eng.pg_query_fingerprint [0]).error with _ | e <;>
      simp [fingerprint, validate_args, hm, h]
  · rcases h : (eng.pg_query_normalize [0]).error with _ | e <;>
      simp [normalize, validate_args, hm, h]
  · by_cases hu : eng.unpack_ok [] = false
    · simp [deparse_protobuf, validate_args, hu]
    · by_cases hk : eng.check_ok [] = false
      · simp [deparse_protobuf, validate_args, hu, hk]
      · rcases h : (eng.pg_query_deparse_protobuf []).error with _ | e <;>
          simp [deparse_protobuf, validate_args, hu, hk, h]

end ExPgQuery
